import Mathlib

/-!
Verification of the checkpoint / grid-search orchestration in
`tner/ner_trainer.py` (classes `Trainer` and `GridSearcher`).

The Python module is shallowly embedded: filesystem state (checkpoint
directories, optimizer snapshots, JSON config files) is made explicit,
metric scores are rationals, the random draws of `get_random_string` and
the expensive library calls (model construction, training, evaluation)
enter as explicit oracle parameters.  Every definition follows the Python
source line by line; deviations of the source from its documentation are
recorded as theorems about the embedded definitions.
-/

namespace NerTrainer

/-- Descending sort, the embedding of Python `sorted(l, reverse=True)`
(stable, decreasing). -/
def sortDesc {α : Type} [LinearOrder α] (l : List α) : List α :=
  l.insertionSort (fun a b => a ≥ b)

/-! ## Trainer.__init__: the checkpoint resume scan (ner_trainer.py lines 59-85)

```
self.current_epoch = 0
for e in sorted([int(i.split('epoch_')[-1]) for i in glob(f'{dir}/epoch_*')], reverse=True):
    if not os.path.exists(f"{dir}/optimizers/optimizer.{e}.pt"):
        continue
    try:
        self.config = load_json(...); self.model = TransformersNER(...)
        self.current_epoch = e
        assert self.current_epoch <= self.config['epoch'], 'model training is over'
    except Exception:
        logging.exception('error at loading checkpoint')
if self.model is None:
    ... fresh config, fresh model, current_epoch stays 0, config serialized ...
```
-/

/-- The observable filesystem state of one checkpoint directory, as far as
the resume scan of `Trainer.__init__` reads it: which `epoch_N` model
snapshot directories exist, which `optimizers/optimizer.N.pt` files exist,
and for which epochs the body of the `try` (config load + model
construction) raises.  Note that when the body reaches
`self.current_epoch = e` the assignment survives even if the trailing
`assert` then fails, because the `except` swallows the error. -/
structure CheckpointFS where
  modelEpochs : List Nat
  optExists : Nat → Bool
  loadRaises : Nat → Bool

/-- One iteration of the resume loop: epochs without an optimizer snapshot
are skipped (`continue`); a raising load keeps the previous state (the
exception is logged and the loop continues); otherwise `current_epoch`
becomes `e`.  There is no `break` in the source, so the loop does not stop
after a success. -/
def resumeStep (fs : CheckpointFS) (acc : Option Nat) (e : Nat) : Option Nat :=
  if fs.optExists e then
    if fs.loadRaises e then acc else some e
  else acc

/-- The whole resume loop of `Trainer.__init__`: iterate `resumeStep` over
the epoch list sorted in reverse, starting from the fresh state (`none`
standing for `self.model is None` / `current_epoch = 0`). -/
def resumeScan (fs : CheckpointFS) : Option Nat :=
  (sortDesc fs.modelEpochs).foldl (resumeStep fs) none

/-- `self.current_epoch` after `Trainer.__init__` finishes the scan. -/
def trainerInitEpoch (fs : CheckpointFS) : Nat :=
  (resumeScan fs).getD 0

/-- Whether `Trainer.__init__` takes the fresh-initialization branch
(`self.model is None`): a fresh model is built, `current_epoch` stays 0
and a fresh config is serialized. -/
def trainerInitFresh (fs : CheckpointFS) : Bool :=
  (resumeScan fs).isNone

/-- The resume point as the specification describes it: the highest epoch
`N` such that both the model snapshot `epoch_N` and the optimizer snapshot
`optimizer.N.pt` exist (loading succeeding).  Written from the spec's
words, to compare against `resumeScan`. -/
def claimedResumeEpoch (fs : CheckpointFS) : Option Nat :=
  (fs.modelEpochs.filter (fun e => fs.optExists e && !fs.loadRaises e)).max?

/-- A checkpoint directory holding complete, loadable snapshots for epochs
3 and 5 (both `epoch_N` and `optimizer.N.pt` present, all loads fine). -/
def twoEpochFS : CheckpointFS :=
  { modelEpochs := [3, 5]
    optExists := fun e => e == 3 || e == 5
    loadRaises := fun _ => false }

/-- C1: at a directory with complete snapshots for epochs 3 and 5, the
resume scan of `Trainer.__init__` ends at epoch 3, not at the highest
complete epoch 5: the loop body has no `break`, so after loading epoch 5
it keeps going and the last (lowest) successful load wins, although the
`reverse=True` iteration order shows the highest epoch was meant to win. -/
theorem c1_resume_scan_at_failing_input :
    resumeScan twoEpochFS = some 3 ∧
    claimedResumeEpoch twoEpochFS = some 5 ∧
    trainerInitEpoch twoEpochFS = 3 ∧
    resumeScan twoEpochFS ≠ claimedResumeEpoch twoEpochFS := by
  decide

/-! ## Trainer: the "training is over" checks (ner_trainer.py lines 73 and 135)

Construction-adjacent: `assert self.current_epoch <= self.config['epoch'],
'model training is over'` — inside the `try` of the resume loop, after the
assignments, with the surrounding `except` logging and continuing.
Start of `train`: `assert self.current_epoch != self.config['epoch'],
'training is over'`, before the epoch loop `range(self.current_epoch,
self.config['epoch'])`. -/

/-- The constructor-side assertion of the resume-loop body: `true` means it
passes (no `AssertionError`).  Even when it fails, the `except` around the
loop body catches the error, so nothing propagates out of `__init__`. -/
def initEpochAssertPasses (currentEpoch epochTotal : Nat) : Bool :=
  decide (currentEpoch ≤ epochTotal)

/-- `Trainer.train` up to its epoch loop: the gate assertion, then the list
of epochs the loop would iterate (`range(current_epoch, epoch)`).  The loop
body (batching, gradient steps, checkpointing) is outside this claim. -/
def trainEpochs (currentEpoch epochTotal : Nat) : Except String (List Nat) :=
  if currentEpoch = epochTotal then .error "training is over"
  else .ok (List.range' currentEpoch (epochTotal - currentEpoch))

/-- C4 counterexample: with resumed epoch = configured epoch count = 10 the
construction-adjacent assertion `current_epoch <= epoch` passes, i.e. no
error is raised at construction time; only `train` raises. -/
theorem c4_counterexample :
    initEpochAssertPasses 10 10 = true ∧
    trainEpochs 10 10 = .error "training is over" := by
  constructor
  · decide
  · rfl

/-- C4 (amended): when the resumed epoch equals the configured total epoch
count, `train` raises `'training is over'` before running any epoch, while
the construction-time assertion (`current_epoch <= epoch`) passes on
equality — it only trips for `current_epoch > epoch`, and even then the
surrounding `except` swallows it. -/
theorem c4_train_gate (n : Nat) :
    initEpochAssertPasses n n = true ∧
    trainEpochs n n = .error "training is over" := by
  refine ⟨by simp [initEpochAssertPasses], ?_⟩
  simp [trainEpochs]

/-! ## Trainer.save (ner_trainer.py lines 109-129)

```
save_dir = pj(self.checkpoint_dir, f'epoch_{current_epoch + 1}')
os.makedirs(save_dir, exist_ok=True); self.model.save(save_dir)
save_dir_opt = pj(self.checkpoint_dir, 'optimizers', f'optimizer.{current_epoch + 1}.pt')
torch.save({...}, save_dir_opt)
if os.path.exists(pj(self.checkpoint_dir, 'optimizers', f'optimizer.{current_epoch}.pt')):
    os.remove(pj(self.checkpoint_dir, 'optimizers', f'optimizer.{current_epoch}.pt'))
```
-/

/-- The snapshot contents of one checkpoint directory: the set of epochs
with an `epoch_N` model snapshot and the set of epochs with an
`optimizers/optimizer.N.pt` snapshot. -/
structure CheckpointStore where
  modelEpochs : Finset Nat
  optEpochs : Finset Nat
deriving DecidableEq

namespace Trainer

/-- `Trainer.save(current_epoch)`: writes the model snapshot for epoch
`current_epoch + 1`, writes the optimizer snapshot for `current_epoch + 1`,
then removes the optimizer snapshot for `current_epoch` if it exists
(`Finset.erase` is a no-op otherwise).  Model snapshots are never removed. -/
def save (currentEpoch : Nat) (st : CheckpointStore) : CheckpointStore :=
  { modelEpochs := insert (currentEpoch + 1) st.modelEpochs
    optEpochs := (insert (currentEpoch + 1) st.optEpochs).erase currentEpoch }

end Trainer

/-- C7: `Trainer.save` at epoch `n` adds the model snapshot `epoch_{n+1}`
and touches no other model snapshot, adds the optimizer snapshot for
`n + 1` and removes exactly the one for `n`; under the maintained invariant
that at most the current epoch's optimizer snapshot is on disk, the single
snapshot surviving the save is the one for `n + 1`. -/
theorem c7_save_effect (n : Nat) (st : CheckpointStore)
    (h : st.optEpochs ⊆ {n}) :
    (Trainer.save n st).modelEpochs = insert (n + 1) st.modelEpochs ∧
    st.modelEpochs ⊆ (Trainer.save n st).modelEpochs ∧
    (Trainer.save n st).optEpochs = insert (n + 1) (st.optEpochs.erase n) ∧
    n ∉ (Trainer.save n st).optEpochs ∧
    (Trainer.save n st).optEpochs = {n + 1} := by
  have hne : n + 1 ≠ n := Nat.succ_ne_self n
  refine ⟨rfl, Finset.subset_insert _ _, ?_, ?_, ?_⟩
  · exact Finset.erase_insert_of_ne hne
  · exact Finset.not_mem_erase _ _
  · rcases Finset.subset_singleton_iff.mp h with h0 | h0 <;>
      simp [Trainer.save, h0, Finset.erase_insert_of_ne hne]

/-- C7 witness: a store holding model snapshots for epochs 1 and 2 and the
optimizer snapshot for epoch 2, saved at epoch 2. -/
theorem c7_save_effect_witness :
    (Trainer.save 2 ⟨{1, 2}, {2}⟩).modelEpochs = insert 3 {1, 2} ∧
    ({1, 2} : Finset Nat) ⊆ (Trainer.save 2 ⟨{1, 2}, {2}⟩).modelEpochs ∧
    (Trainer.save 2 ⟨{1, 2}, {2}⟩).optEpochs = insert 3 (({2} : Finset Nat).erase 2) ∧
    2 ∉ (Trainer.save 2 ⟨{1, 2}, {2}⟩).optEpochs ∧
    (Trainer.save 2 ⟨{1, 2}, {2}⟩).optEpochs = {3} :=
  c7_save_effect 2 ⟨{1, 2}, {2}⟩ (by decide)

/-! ## GridSearcher.__init__.to_list (ner_trainer.py lines 245-252)

```
def to_list(_val):
    if type(_val) != list:
        return [_val]
    assert len(_val) == len(set(_val)), _val
    if None in _val:
        _val.pop(_val.index(None))
        return [None] + sorted(_val, reverse=True)
    return sorted(_val, reverse=True)
```
-/

/-- An argument of `to_list`: either a scalar or a list; entries are either
`None` (`none`) or comparable values (`some`). -/
inductive AxisInput (α : Type) where
  | scalar : Option α → AxisInput α
  | listV : List (Option α) → AxisInput α

/-- Python `_val.pop(_val.index(None))`: remove the first `None` from the
list. -/
def popNone {α : Type} [DecidableEq α] (l : List (Option α)) : List (Option α) :=
  l.erase none

/-- `to_list`.  `len(_val) == len(set(_val))` is `Nodup`; a failing
`assert` is `Except.error`.  `_val.pop(_val.index(None))` removes the first
(by `Nodup`, only) `None`; `sorted(_val, reverse=True)` on the remaining
`None`-free list is `sortDesc` on the underlying values (`reduceOption` /
`map some` mediate between `Option α` entries and values). -/
def to_list {α : Type} [LinearOrder α] : AxisInput α → Except String (List (Option α))
  | .scalar v => .ok [v]
  | .listV l =>
    if l.Nodup then
      if none ∈ l then
        .ok (none :: (sortDesc (popNone l).reduceOption).map some)
      else
        .ok ((sortDesc l.reduceOption).map some)
    else .error "duplicated values"

/-- C5 counterexample: at the duplicated axis `[1, 1]`, `to_list` raises an
`AssertionError` instead of returning a deduplicated list. -/
theorem c5_counterexample :
    to_list (AxisInput.listV [some (1 : ℚ), some 1]) = .error "duplicated values" := by
  rfl

/-- Mapping `some` back over `reduceOption` is the identity on `None`-free
lists. -/
theorem reduceOption_map_some_of_not_mem {α : Type} :
    ∀ (m : List (Option α)), none ∉ m → m.reduceOption.map some = m
  | [], _ => rfl
  | a :: t, hm => by
    cases a with
    | none => exact absurd (List.mem_cons_self _ _) hm
    | some x =>
      have ht : none ∉ t := fun h => hm (List.mem_cons_of_mem _ h)
      simp [List.reduceOption_cons_of_some, reduceOption_map_some_of_not_mem t ht]

/-- `reduceOption` undoes `map some`. -/
theorem reduceOption_map_some_eq {α : Type} :
    ∀ (s : List α), (s.map some).reduceOption = s
  | [] => rfl
  | a :: t => by simp [List.reduceOption_cons_of_some, reduceOption_map_some_eq t]

/-- `perm_cons_erase` for any lawful `BEq` instance. -/
theorem perm_cons_erase_lawful {α : Type} [BEq α] [LawfulBEq α] {a : α} :
    ∀ {l : List α}, a ∈ l → l.Perm (a :: l.erase a) := by
  intro l
  induction l with
  | nil => intro h; cases h
  | cons b t ih =>
    intro h
    by_cases hb : b = a
    · subst hb
      rw [List.erase_cons_head]
    · have hbne : ¬(b == a) = true := by simp [hb]
      have h2 : a ∈ t := by
        rcases List.mem_cons.mp h with h1 | h1
        · exact absurd h1.symm hb
        · exact h1
      rw [List.erase_cons_tail hbne]
      exact ((ih h2).cons b).trans (List.Perm.swap a b _)

/-- The `None`-first branch of `to_list` permutes its input. -/
theorem to_list_perm_of_mem (l : List (Option ℚ)) (h : l.Nodup) (hn : none ∈ l) :
    (none :: (sortDesc (popNone l).reduceOption).map some).Perm l := by
  have hne : none ∉ popNone l := List.Nodup.not_mem_erase h
  have h1 : ((popNone l).reduceOption).map some = popNone l :=
    reduceOption_map_some_of_not_mem _ hne
  have h2 : ((sortDesc (popNone l).reduceOption).map some).Perm
      (((popNone l).reduceOption).map some) :=
    (List.perm_insertionSort _ _).map some
  rw [h1] at h2
  exact (List.Perm.cons none h2).trans (perm_cons_erase_lawful hn).symm

/-- The `None`-free branch of `to_list` permutes its input. -/
theorem to_list_perm_of_not_mem (l : List (Option ℚ)) (hn : none ∉ l) :
    ((sortDesc l.reduceOption).map some).Perm l := by
  have h1 : (l.reduceOption).map some = l :=
    reduceOption_map_some_of_not_mem _ hn
  have h2 : ((sortDesc l.reduceOption).map some).Perm ((l.reduceOption).map some) :=
    (List.perm_insertionSort _ _).map some
  rw [h1] at h2
  exact h2

/-- C5 (amended): a scalar becomes a singleton; a duplicate-free list is
returned as a permutation of itself (still duplicate-free) whose numeric
part is sorted in descending order, with `None` placed first whenever it is
present; a list with duplicate entries raises an `AssertionError` (see the
counterexample) instead of being deduplicated. -/
theorem c5_to_list_normalization (l : List (Option ℚ)) (h : l.Nodup) (v : Option ℚ) :
    to_list (AxisInput.scalar v) = .ok [v] ∧
    ∃ r, to_list (AxisInput.listV l) = .ok r ∧
      r.Perm l ∧ r.Nodup ∧
      List.Sorted (fun a b => a ≥ b) r.reduceOption ∧
      (none ∈ l → r.head? = some none) ∧
      (none ∉ l → none ∉ r) := by
  refine ⟨rfl, ?_⟩
  by_cases hn : none ∈ l
  · refine ⟨none :: (sortDesc (popNone l).reduceOption).map some,
      by simp [to_list, h, hn], to_list_perm_of_mem l h hn,
      (to_list_perm_of_mem l h hn).nodup_iff.mpr h, ?_, fun _ => rfl,
      fun hc => absurd hn hc⟩
    have hr : (none :: (sortDesc (popNone l).reduceOption).map some).reduceOption
        = sortDesc (popNone l).reduceOption := by
      simp [List.reduceOption_cons_of_none, reduceOption_map_some_eq]
    rw [hr]
    exact List.sorted_insertionSort _ _
  · refine ⟨(sortDesc l.reduceOption).map some,
      by simp [to_list, h, hn], to_list_perm_of_not_mem l hn,
      (to_list_perm_of_not_mem l hn).nodup_iff.mpr h, ?_,
      fun hc => absurd hc hn, ?_⟩
    · rw [reduceOption_map_some_eq]
      exact List.sorted_insertionSort _ _
    · intro _ hc
      rcases List.mem_map.mp hc with ⟨x, _, hx⟩
      exact Option.noConfusion hx

/-- C5 witness: the axis `[2, None, 1]` with the scalar `7`. -/
theorem c5_to_list_normalization_witness :
    to_list (AxisInput.scalar (some (7 : ℚ))) = .ok [some 7] ∧
    ∃ r, to_list (AxisInput.listV [some (2 : ℚ), none, some 1]) = .ok r ∧
      r.Perm [some 2, none, some 1] ∧ r.Nodup ∧
      List.Sorted (fun a b => a ≥ b) r.reduceOption ∧
      (none ∈ [some (2 : ℚ), none, some 1] → r.head? = some none) ∧
      (none ∉ [some (2 : ℚ), none, some 1] → none ∉ r) :=
  c5_to_list_normalization [some 2, none, some 1] (by decide) (some 7)

/-! ## GridSearcher.run, 3rd RUN: the extension loop (ner_trainer.py lines 381-416)

```
metrics = [[epoch, best_metric_score]]
while True:
    epoch += 1
    ... train to `epoch` if epoch_{epoch} is missing ...
    metric, tmp_metric = self.eval_single_model(...)
    tmp_metric_score = tmp_metric[...]
    metrics.append([epoch, tmp_metric_score])
    if best_metric_score > tmp_metric_score:
        break
    else:
        best_metric_score = tmp_metric_score
config['epoch'] = epoch - 1
best_model_ckpt = f"...epoch_{config['epoch']}"
```
-/

/-- The `while True` loop of the 3rd RUN, with training/evaluation reduced
to the score oracle (metric of each epoch snapshot).  `fuel` bounds the
iterations (`none` = fuel exhausted; the Python loop would simply keep
going).  Returns the stopping epoch and the `metrics` table. -/
def phase3Loop (score : Nat → ℚ) :
    Nat → Nat → ℚ → List (Nat × ℚ) → Option (Nat × List (Nat × ℚ))
  | 0, _, _, _ => none
  | fuel + 1, epoch, best, ms =>
    let e := epoch + 1
    let t := score e
    let ms2 := ms ++ [(e, t)]
    if best > t then some (e, ms2)
    else phase3Loop score fuel e t ms2

/-- The 3rd RUN from entry to the final selection: run the loop starting
from the phase-2 winner `(epoch0, best0)`, then set
`config['epoch'] = epoch - 1` — the final winner is the epoch immediately
before the stopping epoch. -/
def phase3 (score : Nat → ℚ) (epoch0 : Nat) (best0 : ℚ) (fuel : Nat) :
    Option (Nat × List (Nat × ℚ)) :=
  (phase3Loop score fuel epoch0 best0 [(epoch0, best0)]).map fun r => (r.1 - 1, r.2)

/-- The metric the loop compares against at epoch `e`: the phase-2 winner's
score for `e ≤ epoch0`, the fresh evaluation otherwise. -/
def runningScore (score : Nat → ℚ) (epoch0 : Nat) (best0 : ℚ) (e : Nat) : ℚ :=
  if e ≤ epoch0 then best0 else score e

/-- The scores of the C3 example: the phase-2 winner at epoch 10 scores 5,
epoch 11 ties it with 5, epoch 12 drops to 3. -/
def tieScore : Nat → ℚ := fun e => if e = 11 then 5 else 3

/-- C3 counterexample: on `tieScore` the loop does not stop at epoch 11,
the first epoch whose metric (5) is not strictly greater than the running
best (5): the tie takes the `else` branch and the loop continues, stopping
only at epoch 12 and selecting winner 11 — the claim predicts winner 10. -/
theorem c3_counterexample :
    (phase3 tieScore 10 5 20).map Prod.fst = some 11 ∧
    ¬ ((5 : ℚ) < tieScore 11) := by
  decide

/-- Loop invariant for the 3rd-RUN loop: if the loop, entered at `cur` with
running best equal to `runningScore cur`, returns `(stopE, ms)`, then the
stopping epoch is the first one whose metric is *strictly less* than its
predecessor's (ties update the best and continue), and every epoch strictly
between the entry and the stop is no worse than its predecessor. -/
theorem phase3Loop_stop (score : Nat → ℚ) (epoch0 : Nat) (best0 : ℚ) :
    ∀ (fuel cur : Nat) (b : ℚ) (acc : List (Nat × ℚ)) (stopE : Nat)
      (ms : List (Nat × ℚ)),
      epoch0 ≤ cur →
      b = runningScore score epoch0 best0 cur →
      phase3Loop score fuel cur b acc = some (stopE, ms) →
      cur < stopE ∧
      score stopE < runningScore score epoch0 best0 (stopE - 1) ∧
      ∀ e, cur < e → e < stopE → runningScore score epoch0 best0 (e - 1) ≤ score e := by
  intro fuel
  induction fuel with
  | zero =>
    intro cur b acc stopE ms _ _ hrun
    exact Option.noConfusion hrun
  | succ n ih =>
    intro cur b acc stopE ms hcur hb hrun
    simp only [phase3Loop] at hrun
    by_cases hlt : b > score (cur + 1)
    · rw [if_pos hlt] at hrun
      obtain ⟨h1, h2⟩ := Prod.mk.injEq _ _ _ _ ▸ Option.some.inj hrun
      subst h1
      refine ⟨Nat.lt_succ_self cur, ?_, ?_⟩
      · have : cur + 1 - 1 = cur := Nat.succ_sub_one cur
        rw [this, ← hb]
        exact hlt
      · intro e he1 he2
        omega
    · rw [if_neg hlt] at hrun
      have hb2 : score (cur + 1) = runningScore score epoch0 best0 (cur + 1) := by
        have : ¬ (cur + 1 ≤ epoch0) := by omega
        simp [runningScore, this]
      obtain ⟨ih1, ih2, ih3⟩ :=
        ih (cur + 1) (score (cur + 1)) _ stopE ms (by omega) hb2 hrun
      refine ⟨by omega, ih2, ?_⟩
      intro e he1 he2
      by_cases he : e = cur + 1
      · subst he
        have : cur + 1 - 1 = cur := Nat.succ_sub_one cur
        rw [this, ← hb]
        exact le_of_not_lt hlt
      · exact ih3 e (by omega) he2

/-- C3 (amended): the 3rd-RUN extension loop stops at the first additional
epoch whose metric is *strictly less* than the running best (a tie with the
running best counts as an improvement: it updates the best and the loop
continues), and the final selected winner is the epoch immediately prior to
that stopping epoch. -/
theorem c3_phase3_stop_and_winner (score : Nat → ℚ) (epoch0 : Nat) (best0 : ℚ)
    (fuel stopE : Nat) (ms : List (Nat × ℚ))
    (h : phase3Loop score fuel epoch0 best0 [(epoch0, best0)] = some (stopE, ms)) :
    epoch0 < stopE ∧
    score stopE < runningScore score epoch0 best0 (stopE - 1) ∧
    (∀ e, epoch0 < e → e < stopE → runningScore score epoch0 best0 (e - 1) ≤ score e) ∧
    (phase3 score epoch0 best0 fuel).map Prod.fst = some (stopE - 1) := by
  have hb : best0 = runningScore score epoch0 best0 epoch0 := by
    simp [runningScore]
  obtain ⟨h1, h2, h3⟩ :=
    phase3Loop_stop score epoch0 best0 fuel epoch0 best0 _ stopE ms le_rfl hb h
  exact ⟨h1, h2, h3, by simp [phase3, h]⟩

/-- C3 witness: the amended claim at `tieScore`, stopping epoch 12, winner
11. -/
theorem c3_phase3_stop_and_winner_witness :
    10 < 12 ∧
    tieScore 12 < runningScore tieScore 10 5 (12 - 1) ∧
    (∀ e, 10 < e → e < 12 → runningScore tieScore 10 5 (e - 1) ≤ tieScore e) ∧
    (phase3 tieScore 10 5 20).map Prod.fst = some (12 - 1) :=
  c3_phase3_stop_and_winner tieScore 10 5 20 12 [(10, 5), (11, 5), (12, 3)] (by decide)

/-! ## GridSearcher.__init__: dynamic axes and their Cartesian product
(ner_trainer.py lines 254-272)

```
self.dynamic_config = {'lr': to_list(lr), 'crf': to_list(crf),
    'random_seed': to_list(random_seed), 'weight_decay': to_list(weight_decay),
    'lr_warmup_step_ratio': to_list(lr_warmup_step_ratio),
    'max_grad_norm': to_list(max_grad_norm),
    'gradient_accumulation_steps': to_list(gradient_accumulation_steps)}
self.all_dynamic_configs = list(product(<the seven lists, in that order>))
```
Axis values are embedded as `Option ℚ` (`None` is `none`; the booleans of
the `crf` axis embed as 0/1, preserving Python's `False < True` order). -/

abbrev DynVal : Type := Option ℚ

/-- One dynamic-config tuple `(lr, crf, random_seed, weight_decay,
lr_warmup_step_ratio, max_grad_norm, gradient_accumulation_steps)` — its
seven components named after the seven keys of `tmp_dynamic_config`. -/
structure DynTuple where
  lr : DynVal
  crf : DynVal
  random_seed : DynVal
  weight_decay : DynVal
  lr_warmup_step_ratio : DynVal
  max_grad_norm : DynVal
  gradient_accumulation_steps : DynVal
deriving DecidableEq

/-- `itertools.product` over the seven axis lists, rightmost axis varying
fastest. -/
def product7 (l1 l2 l3 l4 l5 l6 l7 : List DynVal) : List DynTuple :=
  l1.flatMap fun a => l2.flatMap fun b => l3.flatMap fun c => l4.flatMap fun d =>
    l5.flatMap fun e => l6.flatMap fun f => l7.map fun g => ⟨a, b, c, d, e, f, g⟩

/-- The dynamic part of a constructed `GridSearcher`: the seven normalized
axis lists (`self.dynamic_config`) and `self.all_dynamic_configs`. -/
structure GridSearcherCfg where
  lr : List DynVal
  crf : List DynVal
  random_seed : List DynVal
  weight_decay : List DynVal
  lr_warmup_step_ratio : List DynVal
  max_grad_norm : List DynVal
  gradient_accumulation_steps : List DynVal
  all_dynamic_configs : List DynTuple

/-- `GridSearcher.__init__` restricted to the dynamic axes: normalize each
axis with `to_list` (any duplicated axis raises, exactly as each `to_list`
call would) and take the Cartesian product in the fixed source order. -/
def gridSearcherInit (lrA crfA rsA wdA wrA mgA gaA : AxisInput ℚ) :
    Except String GridSearcherCfg :=
  match to_list lrA, to_list crfA, to_list rsA, to_list wdA,
      to_list wrA, to_list mgA, to_list gaA with
  | .ok lrL, .ok crfL, .ok rsL, .ok wdL, .ok wrL, .ok mgL, .ok gaL =>
    .ok { lr := lrL, crf := crfL, random_seed := rsL, weight_decay := wdL,
          lr_warmup_step_ratio := wrL, max_grad_norm := mgL,
          gradient_accumulation_steps := gaL,
          all_dynamic_configs := product7 lrL crfL rsL wdL wrL mgL gaL }
  | _, _, _, _, _, _, _ => .error "duplicated values"

/-- If every value of `f` has length `n`, `flatMap` multiplies lengths. -/
theorem length_flatMap_const {α β : Type} (l : List α) (f : α → List β) (n : Nat)
    (h : ∀ a, (f a).length = n) : (l.flatMap f).length = l.length * n := by
  induction l with
  | nil => simp
  | cons a t ih =>
    rw [List.flatMap_cons, List.length_append, h, ih, List.length_cons,
      Nat.succ_mul, Nat.add_comm]

/-- The length of the sevenfold product is the product of the lengths. -/
theorem length_product7 (l1 l2 l3 l4 l5 l6 l7 : List DynVal) :
    (product7 l1 l2 l3 l4 l5 l6 l7).length =
      l1.length * (l2.length * (l3.length * (l4.length *
        (l5.length * (l6.length * l7.length))))) := by
  unfold product7
  refine length_flatMap_const _ _ _ fun a => ?_
  refine length_flatMap_const _ _ _ fun b => ?_
  refine length_flatMap_const _ _ _ fun c => ?_
  refine length_flatMap_const _ _ _ fun d => ?_
  refine length_flatMap_const _ _ _ fun e => ?_
  refine length_flatMap_const _ _ _ fun f => ?_
  simp

/-- C6: for every choice of the seven axes accepted by `to_list`
normalization, `all_dynamic_configs` has exactly
`∏ (length of each normalized axis)` tuples, and it *is* the fixed
function `product7` of the seven normalized axis lists (so the enumeration
order is determined by the axis lists alone and re-runs reproduce it). -/
theorem c6_grid_cartesian_product (lrA crfA rsA wdA wrA mgA gaA : AxisInput ℚ)
    (gs : GridSearcherCfg)
    (h : gridSearcherInit lrA crfA rsA wdA wrA mgA gaA = .ok gs) :
    gs.all_dynamic_configs.length =
      gs.lr.length * gs.crf.length * gs.random_seed.length *
      gs.weight_decay.length * gs.lr_warmup_step_ratio.length *
      gs.max_grad_norm.length * gs.gradient_accumulation_steps.length ∧
    gs.all_dynamic_configs =
      product7 gs.lr gs.crf gs.random_seed gs.weight_decay
        gs.lr_warmup_step_ratio gs.max_grad_norm
        gs.gradient_accumulation_steps := by
  unfold gridSearcherInit at h
  split at h
  · obtain rfl := Option.some.inj (congrArg (fun x => x.toOption) h)
    refine ⟨?_, rfl⟩
    rw [length_product7]
    ring
  · exact Except.noConfusion h

/-- The grid of the C6 witness: axes `lr = [1, 2]` and `crf = [1, 0]`
(booleans as 0/1), the other five axes the scalar `None`. -/
def gridEx : GridSearcherCfg :=
  { lr := [some 2, some 1], crf := [some 1, some 0], random_seed := [none],
    weight_decay := [none], lr_warmup_step_ratio := [none],
    max_grad_norm := [none], gradient_accumulation_steps := [none],
    all_dynamic_configs :=
      product7 [some 2, some 1] [some 1, some 0] [none] [none] [none] [none] [none] }

/-- C6 witness: the 2 x 2 x 1 x 1 x 1 x 1 x 1 grid. -/
theorem c6_grid_cartesian_product_witness :
    gridEx.all_dynamic_configs.length =
      gridEx.lr.length * gridEx.crf.length * gridEx.random_seed.length *
      gridEx.weight_decay.length * gridEx.lr_warmup_step_ratio.length *
      gridEx.max_grad_norm.length * gridEx.gradient_accumulation_steps.length ∧
    gridEx.all_dynamic_configs =
      product7 gridEx.lr gridEx.crf gridEx.random_seed gridEx.weight_decay
        gridEx.lr_warmup_step_ratio gridEx.max_grad_norm
        gridEx.gradient_accumulation_steps :=
  c6_grid_cartesian_product (.listV [some 1, some 2]) (.listV [some 1, some 0])
    (.scalar none) (.scalar none) (.scalar none) (.scalar none) (.scalar none)
    gridEx (by rfl)

/-! ## GridSearcher.eval_single_model (ner_trainer.py lines 422-438)

```
metric = {}
if os.path.exists(pj(checkpoint_dir_model, 'eval', 'metric.json')):
    metric = load_json(...)
if self.eval_config['data_split'] in metric:
    tmp_metric = metric[self.eval_config['data_split']]
else:
    tmp_model = TransformersNER(...); tmp_metric = tmp_model.evaluate(...)
    metric[self.eval_config['data_split']] = tmp_metric
return metric, tmp_metric
```
-/

/-- `GridSearcher.eval_single_model`, with the checkpoint's cached
`eval/metric.json` content passed in (`none` = file absent, the map as an
insertion-ordered association list), and the expensive branch —
constructing a `TransformersNER` and running `evaluate` — abstracted into
an oracle.  Returns the metric map, the scalar for the configured split,
and whether an evaluation model was constructed.  The function writes
nothing to disk; callers persist the returned map. -/
def eval_single_model (metricFile : Option (List (String × ℚ)))
    (dataSplit : String) (evaluateOracle : Unit → ℚ) :
    List (String × ℚ) × ℚ × Bool :=
  let metric := metricFile.getD []
  match (metric.find? fun kv => kv.1 == dataSplit).map Prod.snd with
  | some v => (metric, v, false)
  | none =>
    let t := evaluateOracle ()
    (metric ++ [(dataSplit, t)], t, true)

/-- C9: when the cached metric file already contains the configured split,
`eval_single_model` returns the cached scalar without constructing an
evaluation model, independently of the evaluation oracle — and since it
leaves the file untouched, a second call returns the same result. -/
theorem c9_eval_single_model_cached (m : List (String × ℚ)) (s : String)
    (o o2 : Unit → ℚ) (v : ℚ)
    (h : (m.find? fun kv => kv.1 == s).map Prod.snd = some v) :
    eval_single_model (some m) s o = (m, v, false) ∧
    eval_single_model (some m) s o2 = eval_single_model (some m) s o := by
  have h1 : ∀ o3 : Unit → ℚ, eval_single_model (some m) s o3 = (m, v, false) := by
    intro o3
    unfold eval_single_model
    simp only [Option.getD_some]
    rw [h]
  exact ⟨h1 o, (h1 o2).trans (h1 o).symm⟩

/-- C9 witness: a metric file caching `2020.dev -> 1`, probed with two
different evaluation oracles. -/
theorem c9_eval_single_model_cached_witness :
    eval_single_model (some [("2020.dev", (1 : ℚ))]) "2020.dev" (fun _ => 0) =
      ([("2020.dev", (1 : ℚ))], 1, false) ∧
    eval_single_model (some [("2020.dev", (1 : ℚ))]) "2020.dev" (fun _ => 5) =
      eval_single_model (some [("2020.dev", (1 : ℚ))]) "2020.dev" (fun _ => 0) :=
  c9_eval_single_model_cached [("2020.dev", 1)] "2020.dev" _ _ 1 (by decide)

/-! ## get_random_string (ner_trainer.py lines 32-37) and the phase-1
checkpoint resolution (lines 300-323)

```
def get_random_string(length=6, exclude=None):
    tmp = ''.join(random.choice(...) for _ in range(length))
    if exclude:
        while tmp in exclude:
            tmp = ''.join(random.choice(...) for _ in range(length))
    return tmp
```
and, per dynamic-config tuple in the 1st RUN:
```
duplicated_ckpt = [k for k, v in ex_dynamic_config if v == tmp_dynamic_config]
if len(duplicated_ckpt) == 1: checkpoint_dir = duplicated_ckpt[0]
elif len(duplicated_ckpt) == 0:
    ckpt_name_exist = [os.path.basename(k).replace('model_', '') for k in ckpt_exist.keys()]
    ckpt_name_made = [os.path.basename(c).replace('model_', '') for c in checkpoints]
    model_ckpt = get_random_string(exclude=ckpt_name_exist + ckpt_name_made)
    checkpoint_dir = pj(self.checkpoint_dir, f'model_{model_ckpt}')
else: raise ValueError(...)
```
-/

/-- `get_random_string` with the random draws made explicit: `draws` is the
stream of candidates, `i` the next draw, `fuel` a bound on the draws
(`none` = fuel exhausted; the Python loop would keep drawing).  The
`while tmp in exclude` loop returns the first draw outside `exclude`; with
an empty `exclude` the Python `if exclude:` guard skips the loop, which
coincides with the first membership test failing. -/
def get_random_string (draws : Nat → String) (exclude : List String) :
    Nat → Nat → Option String
  | _, 0 => none
  | i, fuel + 1 =>
    if draws i ∈ exclude then get_random_string draws exclude (i + 1) fuel
    else some (draws i)

/-- A returned random string is never in the exclusion list. -/
theorem get_random_string_not_excluded (draws : Nat → String)
    (exclude : List String) :
    ∀ (fuel i : Nat) (s : String),
      get_random_string draws exclude i fuel = some s → s ∉ exclude := by
  intro fuel
  induction fuel with
  | zero =>
    intro i s h
    exact Option.noConfusion h
  | succ n ih =>
    intro i s h
    simp only [get_random_string] at h
    by_cases hmem : draws i ∈ exclude
    · rw [if_pos hmem] at h
      exact ih (i + 1) s h
    · rw [if_neg hmem] at h
      obtain rfl := Option.some.inj h
      exact hmem

/-- Split a character list at `'/'`: the first component is the current
segment, the second the later segments. -/
def splitSlashAux : List Char → List Char × List (List Char)
  | [] => ([], [])
  | c :: rest =>
    let r := splitSlashAux rest
    if c = '/' then ([], r.1 :: r.2) else (c :: r.1, r.2)

/-- `os.path.basename`: the part of the path after the last `'/'`. -/
def basename (p : String) : String :=
  let r := splitSlashAux p.data
  String.mk ((r.1 :: r.2).getLastD [])

/-- Python `.replace('model_', '')` on the character list: drop every
occurrence of `model_`, scanning left to right without overlap. -/
def replaceModelAux : List Char → List Char
  | 'm' :: 'o' :: 'd' :: 'e' :: 'l' :: '_' :: rest => replaceModelAux rest
  | c :: rest => c :: replaceModelAux rest
  | [] => []

/-- Python `p.replace('model_', '')`. -/
def replace_model (p : String) : String := String.mk (replaceModelAux p.data)

/-- The exclusion key the source computes for a checkpoint path:
`os.path.basename(k).replace('model_', '')`. -/
def tokenOf (p : String) : String := replace_model (basename p)

/-- Phase-1 resolution of the checkpoint directory for one dynamic-config
tuple.  `ckptExist` maps each existing `model_*` directory (as discovered
from its `trainer_config.json`) to the seven dynamic values persisted
there; `made` is the `checkpoints` list built so far in this run.  A
`DynTuple` stands for the list of the seven dynamic values in sorted-key
order — a fixed bijection, so Python's list equality is tuple equality. -/
def resolveCheckpoint (root : String) (ckptExist : List (String × DynTuple))
    (made : List String) (t : DynTuple) (draws : Nat → String) (fuel : Nat) :
    Except String String :=
  match (ckptExist.filter fun kv : String × DynTuple => decide (kv.2 = t)).map
      Prod.fst with
  | [d] => .ok d
  | [] =>
    match get_random_string draws
        ((ckptExist.map fun kv => tokenOf kv.1) ++ made.map fun c => tokenOf c)
        0 fuel with
    | some s => .ok (root ++ "/model_" ++ s)
    | none => .error "random draws exhausted"
  | _ => .error "duplicated checkpoints are found"

/-- Appending on the left is injective for strings. -/
theorem string_append_left_cancel (a b c : String) (h : a ++ b = a ++ c) :
    b = c := by
  have hd : (a ++ b).data = (a ++ c).data := by rw [h]
  rw [String.data_append, String.data_append] at hd
  exact String.ext (List.append_cancel_left hd)

/-- C8: in the 1st RUN, for each dynamic-config tuple: a unique matching
checkpoint directory is reused; two or more matches raise; no match
generates a directory under a fresh random token, which collides with no
existing and no already-created directory (given those are, as produced by
the `model_*` glob, of the form `root/model_<token>`). -/
theorem c8_checkpoint_resolution (root : String)
    (ckptExist : List (String × DynTuple)) (made : List String) (t : DynTuple)
    (draws : Nat → String) (fuel : Nat)
    (hw : ∀ p ∈ ckptExist.map Prod.fst ++ made,
      p = root ++ "/model_" ++ tokenOf p) :
    (∀ d, ((ckptExist.filter fun kv : String × DynTuple =>
        decide (kv.2 = t)).map Prod.fst) = [d] →
      resolveCheckpoint root ckptExist made t draws fuel = .ok d) ∧
    (2 ≤ ((ckptExist.filter fun kv : String × DynTuple =>
        decide (kv.2 = t)).map Prod.fst).length →
      resolveCheckpoint root ckptExist made t draws fuel =
        .error "duplicated checkpoints are found") ∧
    (((ckptExist.filter fun kv : String × DynTuple =>
        decide (kv.2 = t)).map Prod.fst) = [] →
      ∀ s, resolveCheckpoint root ckptExist made t draws fuel = .ok s →
        s ∉ ckptExist.map Prod.fst ∧ s ∉ made) := by
  refine ⟨?_, ?_, ?_⟩
  · intro d hd
    unfold resolveCheckpoint
    rw [hd]
  · intro hlen
    rcases hdup : (ckptExist.filter fun kv : String × DynTuple =>
        decide (kv.2 = t)).map Prod.fst with _ | ⟨d, _ | ⟨d2, rest⟩⟩
    · rw [hdup] at hlen
      simp at hlen
    · rw [hdup] at hlen
      simp at hlen
    · unfold resolveCheckpoint
      rw [hdup]
  · intro hnil s hs
    rcases hg : get_random_string draws
        ((ckptExist.map fun kv => tokenOf kv.1) ++ made.map fun c => tokenOf c)
        0 fuel with _ | tok
    · have hres : resolveCheckpoint root ckptExist made t draws fuel =
          .error "random draws exhausted" := by
        unfold resolveCheckpoint
        rw [hnil, hg]
      rw [hres] at hs
      exact Except.noConfusion hs
    · have hres : resolveCheckpoint root ckptExist made t draws fuel =
          .ok (root ++ "/model_" ++ tok) := by
        unfold resolveCheckpoint
        rw [hnil, hg]
      rw [hres] at hs
      obtain rfl := Except.ok.inj hs
      have htok := get_random_string_not_excluded _ _ fuel 0 tok hg
      constructor
      · intro hmem
        have hp := hw _ (List.mem_append_left _ hmem)
        have hcancel : tok = tokenOf (root ++ "/model_" ++ tok) :=
          string_append_left_cancel (root ++ "/model_") tok
            (tokenOf (root ++ "/model_" ++ tok)) hp
        have hmem2 : tokenOf (root ++ "/model_" ++ tok) ∈
            ckptExist.map fun kv => tokenOf kv.1 := by
          rcases List.mem_map.mp hmem with ⟨kv, hkv, hkv2⟩
          exact List.mem_map.mpr ⟨kv, hkv, by rw [hkv2]⟩
        exact htok (List.mem_append_left _ (hcancel ▸ hmem2))
      · intro hmem
        have hp := hw _ (List.mem_append_right _ hmem)
        have hcancel : tok = tokenOf (root ++ "/model_" ++ tok) :=
          string_append_left_cancel (root ++ "/model_") tok
            (tokenOf (root ++ "/model_" ++ tok)) hp
        have hmem2 : tokenOf (root ++ "/model_" ++ tok) ∈
            made.map fun c => tokenOf c :=
          List.mem_map.mpr ⟨_, hmem, rfl⟩
        exact htok (List.mem_append_right _ (hcancel ▸ hmem2))

/-- The dynamic-config tuple of the C8 witness: everything `None`. -/
def allNoneTuple : DynTuple := ⟨none, none, none, none, none, none, none⟩

/-- C8 witness: one existing checkpoint `root/model_aaaaaa` holding the
all-`None` tuple, nothing created yet, resolved for the same tuple (the
reuse branch) with a draw stream of `"bbbbbb"`. -/
theorem c8_checkpoint_resolution_witness :
    (∀ d, (([("root/model_aaaaaa", allNoneTuple)].filter
        fun kv : String × DynTuple => decide (kv.2 = allNoneTuple)).map Prod.fst) = [d] →
      resolveCheckpoint "root" [("root/model_aaaaaa", allNoneTuple)] []
        allNoneTuple (fun _ => "bbbbbb") 1 = .ok d) ∧
    (2 ≤ (([("root/model_aaaaaa", allNoneTuple)].filter
        fun kv : String × DynTuple => decide (kv.2 = allNoneTuple)).map Prod.fst).length →
      resolveCheckpoint "root" [("root/model_aaaaaa", allNoneTuple)] []
        allNoneTuple (fun _ => "bbbbbb") 1 =
        .error "duplicated checkpoints are found") ∧
    ((([("root/model_aaaaaa", allNoneTuple)].filter
        fun kv : String × DynTuple => decide (kv.2 = allNoneTuple)).map Prod.fst) = [] →
      ∀ s, resolveCheckpoint "root" [("root/model_aaaaaa", allNoneTuple)] []
        allNoneTuple (fun _ => "bbbbbb") 1 = .ok s →
        s ∉ [("root/model_aaaaaa", allNoneTuple)].map Prod.fst ∧ s ∉ ([] : List String)) :=
  c8_checkpoint_resolution "root" [("root/model_aaaaaa", allNoneTuple)] []
    allNoneTuple (fun _ => "bbbbbb") 1 (by decide)

/-! ## GridSearcher.run: the persisted-config sanity check
(ner_trainer.py lines 274-286)

```
for _f, c in zip(['config_static', 'config_dynamic.json', 'config_eval.json'],
                 [self.static_config, self.dynamic_config, self.eval_config]):
    if os.path.exists(f'{self.checkpoint_dir}/{c}'):
        tmp = load_json(f'{self.checkpoint_dir}/{c}')
        tmp_v = [tmp[k] for k in sorted(tmp.keys())]
        _tmp_v = [c[k] for k in sorted(tmp.keys())]
        assert tmp_v == _tmp_v, f'{str(tmp_v)}\n not matched \n{str(_tmp_v)}'
write_json(self.static_config, pj(self.checkpoint_dir, 'config_static.json'))
write_json(self.dynamic_config, pj(self.checkpoint_dir, 'config_dynamic.json'))
write_json(self.eval_config, pj(self.checkpoint_dir, 'config_eval.json'))
```
The path probed interpolates `c` — the config *dict* — where the zip's
filename `_f` was evidently intended (note `_f` is never used, and the
first zip entry even lacks its `.json`). -/

/-- A Python scalar appearing in these config dicts. -/
inductive PyScalar where
  | pnone : PyScalar
  | pbool : Bool → PyScalar
  | pint : Int → PyScalar
  | pstr : String → PyScalar
deriving DecidableEq

/-- A config-dict value: a scalar, or a list of scalars (the dynamic config
holds candidate lists). -/
inductive PyVal where
  | scalar : PyScalar → PyVal
  | plist : List PyScalar → PyVal
deriving DecidableEq

/-- Python `repr` of a scalar, as an f-string would render it inside a
dict (strings single-quoted, `True`/`False`/`None` capitalized). -/
def pyScalarRepr : PyScalar → String
  | .pnone => "None"
  | .pbool true => "True"
  | .pbool false => "False"
  | .pint n => toString n
  | .pstr s => "\x27" ++ s ++ "\x27"

/-- Python `repr` of a config-dict value. -/
def pyValRepr : PyVal → String
  | .scalar s => pyScalarRepr s
  | .plist l => "[" ++ String.intercalate ", " (l.map pyScalarRepr) ++ "]"

/-- A JSON config dict, in insertion order with unique keys. -/
abbrev PyDict : Type := List (String × PyVal)

/-- Python `str(d)` for a dict `d`: `{'k': v, ...}` in insertion order. -/
def pyDictRepr (d : PyDict) : String :=
  "\x7b" ++
    String.intercalate ", "
      (d.map fun kv => "\x27" ++ kv.1 ++ "\x27: " ++ pyValRepr kv.2) ++
  "\x7d"

/-- Code-point lexicographic comparison of character lists — Python's `<`
on strings. -/
def chListLt : List Char → List Char → Bool
  | [], [] => false
  | [], _ :: _ => true
  | _ :: _, [] => false
  | a :: as, b :: bs => if a < b then true else if b < a then false else chListLt as bs

/-- Python `a <= b` on strings (total order from `chListLt`). -/
def pyStrLe (a b : String) : Bool := !(chListLt b.data a.data)

/-- Python `sorted(d.keys())`. -/
def sortedKeys (d : PyDict) : List String :=
  (d.map Prod.fst).insertionSort fun a b => pyStrLe a b = true

/-- Python `d[k]`: the value at `k`, `KeyError` if absent. -/
def dictGet (d : PyDict) (k : String) : Except String PyVal :=
  match d.find? fun kv => kv.1 == k with
  | some kv => .ok kv.2
  | none => .error "KeyError"

/-- The JSON files under the grid-search root: path to dict contents. -/
abbrev PyFS : Type := List (String × PyDict)

/-- `os.path.exists` + `load_json` combined: the content at a path. -/
def lookupFile (fs : PyFS) (p : String) : Option PyDict :=
  (fs.find? fun kv => kv.1 == p).map Prod.snd

/-- `write_json(_obj, _file)`: create or overwrite. -/
def write_json (obj : PyDict) (file : String) (fs : PyFS) : PyFS :=
  (file, obj) :: fs.filter fun kv => !(kv.1 == file)

/-- One iteration of the sanity loop for config `c`: probe
`f'{self.checkpoint_dir}/{c}'` — the config dict itself is interpolated
into the path — and if a file is there, compare the persisted values with
the fresh ones over the persisted dict's sorted keys, raising
(`AssertionError`, modelled as `Except.error`) on inequality. -/
def sanityCheckOne (fs : PyFS) (dir : String) (c : PyDict) :
    Except String Unit :=
  match lookupFile fs (dir ++ "/" ++ pyDictRepr c) with
  | none => .ok ()
  | some tmp => do
    let ks := sortedKeys tmp
    let tmp_v ← ks.mapM (dictGet tmp)
    let tmp_v2 ← ks.mapM (dictGet c)
    if tmp_v = tmp_v2 then .ok () else .error "not matched"

/-- The opening of `GridSearcher.run`: the three sanity checks (for the
static, dynamic and eval configs, in zip order) followed by the three
unconditional `write_json` calls. -/
def runSanitySegment (fs : PyFS) (dir : String)
    (staticC dynamicC evalC : PyDict) : Except String PyFS := do
  let _ ← sanityCheckOne fs dir staticC
  let _ ← sanityCheckOne fs dir dynamicC
  let _ ← sanityCheckOne fs dir evalC
  .ok (write_json evalC (dir ++ "/config_eval.json")
        (write_json dynamicC (dir ++ "/config_dynamic.json")
          (write_json staticC (dir ++ "/config_static.json") fs)))

/-- `self.static_config` of `GridSearcher.__init__` (line 235). -/
def static_config (data_train modelName : String)
    (batch_size epoch max_length : Int) : PyDict :=
  [("data_split", .scalar (.pstr data_train)), ("model", .scalar (.pstr modelName)),
   ("batch_size", .scalar (.pint batch_size)), ("epoch", .scalar (.pint epoch)),
   ("max_length", .scalar (.pint max_length))]

/-- `self.eval_config` of `GridSearcher.__init__` (line 233). -/
def eval_config (max_length_eval : Int) (data_dev : String) : PyDict :=
  [("max_length_eval", .scalar (.pint max_length_eval)),
   ("metric", .scalar (.pstr "micro/f1")),
   ("data_split", .scalar (.pstr data_dev))]

/-- `self.dynamic_config` as serialized to `config_dynamic.json`
(line 254): the seven normalized candidate lists. -/
def dynamic_config_dict (lr crf random_seed weight_decay lr_warmup_step_ratio
    max_grad_norm gradient_accumulation_steps : List PyScalar) : PyDict :=
  [("lr", .plist lr), ("crf", .plist crf), ("random_seed", .plist random_seed),
   ("weight_decay", .plist weight_decay),
   ("lr_warmup_step_ratio", .plist lr_warmup_step_ratio),
   ("max_grad_norm", .plist max_grad_norm),
   ("gradient_accumulation_steps", .plist gradient_accumulation_steps)]

/-- The freshly computed dynamic config of the C2 run: `lr = [1]`. -/
def freshDyn : PyDict :=
  dynamic_config_dict [.pint 1] [.pbool true] [.pint 0] [.pnone] [.pnone]
    [.pnone] [.pint 1]

/-- The dynamic config persisted by an earlier run: `lr = [3]`. -/
def oldDyn : PyDict :=
  dynamic_config_dict [.pint 3] [.pbool true] [.pint 0] [.pnone] [.pnone]
    [.pnone] [.pint 1]

/-- The checkpoint root before the re-run: it already holds
`config_dynamic.json` from the earlier run. -/
def fsBefore : PyFS := [("ckpt/config_dynamic.json", oldDyn)]

/-- C2: re-running over a root whose persisted `config_dynamic.json`
disagrees with the fresh dynamic config raises nothing — the existence
check probes `f'{dir}/{c}'`, the dict's repr instead of the filename, so it
never sees the persisted file — and the mismatching fresh config silently
overwrites the persisted one. -/
theorem c2_sanity_check_dead_and_overwrites :
    oldDyn ≠ freshDyn ∧
    (runSanitySegment fsBefore "ckpt"
        (static_config "2020.train" "xlm-roberta-large" 32 10 128) freshDyn
        (eval_config 128 "2020.dev")).isOk = true ∧
    ((runSanitySegment fsBefore "ckpt"
        (static_config "2020.train" "xlm-roberta-large" 32 10 128) freshDyn
        (eval_config 128 "2020.dev")).toOption.bind
      fun fs2 => lookupFile fs2 "ckpt/config_dynamic.json") = some freshDyn := by
  refine ⟨by decide, by decide, by decide⟩

/-! ## GridSearcher.run: phase structure and the early return
(ner_trainer.py lines 288-420)

The filesystem writes `run` performs, in order.  Training, evaluation and
ranking results enter as oracle parameters (`resolvedDir`, `partialDone`,
`fullDone`, `savedEpochs`, `tops`, `bestDir`, `bestEpoch`, `bestScore`);
the control flow — in particular
```
if self.epoch_partial == self.epoch:
    logging.info('No 2nd phase as epoch_partial == epoch')
    return
```
right after `write_json(metrics, path_to_metric_1st)` — is the code's. -/

/-- A filesystem write of `GridSearcher.run` (beyond the sanity segment's
config writes, which open the trace). -/
inductive Effect where
  | writeConfigStatic : Effect
  | writeConfigDynamic : Effect
  | writeConfigEval : Effect
  | trainCkpt : String → Effect
  | writeCkptMetric : String → Effect
  | writeMetric1st : Effect
  | writeMetric2nd : Effect
  | writeMetric3rd : Effect
  | writeAdditionalCfg : String → Effect
  | copyBestModel : String → Effect
  | writeBestConfig : Effect
deriving DecidableEq

/-- 1st RUN: per dynamic config, train to `epoch_partial` unless
`epoch_{epoch_partial}` already exists; then evaluate every checkpoint
(writing its `eval/metric.json`); then persist `metric.1st.json`. -/
def phase1Effects (epochPartial : Nat) (cfgs : List DynTuple)
    (resolvedDir : DynTuple → String) (partialDone : String → Bool) :
    List Effect :=
  (cfgs.flatMap fun c =>
    if partialDone (resolvedDir c) then [] else [.trainCkpt (resolvedDir c)]) ++
  (cfgs.map fun c =>
    .writeCkptMetric (resolvedDir c ++ "/epoch_" ++ toString epochPartial)) ++
  [.writeMetric1st]

/-- 2nd RUN: full-train each surviving config unless `epoch_{epoch}`
exists, evaluate every saved epoch snapshot, persist `metric.2nd.json`. -/
def phase2Effects (tops : List String) (fullDone : String → Bool)
    (savedEpochs : String → List Nat) : List Effect :=
  (tops.flatMap fun d => if fullDone d then [] else [.trainCkpt d]) ++
  (tops.flatMap fun d =>
    (savedEpochs d).map fun e => .writeCkptMetric (d ++ "/epoch_" ++ toString e)) ++
  [.writeMetric2nd]

/-- 3rd RUN loop: per iteration write the epoch-count override file, train
the next epoch if its snapshot is missing, and continue while the new
metric is not below the running best. -/
def phase3Effects (bestDir : String) (score : Nat → ℚ) (trained : Nat → Bool) :
    Nat → Nat → ℚ → List Effect
  | 0, _, _ => []
  | fuel + 1, epoch, best =>
    [.writeAdditionalCfg bestDir] ++
    (if trained (epoch + 1) then [] else [.trainCkpt bestDir]) ++
    (if best > score (epoch + 1) then []
     else phase3Effects bestDir score trained fuel (epoch + 1) (score (epoch + 1)))

/-- The write trace of `GridSearcher.run`: the config writes, the 1st RUN,
then — only when `epochPartial ≠ epoch` — the 2nd RUN, the 3rd RUN (only
when the phase-2 winner sits at the configured epoch), and the final
`best_model` copy with its config. -/
def runEffects (epoch epochPartial : Nat) (cfgs : List DynTuple)
    (resolvedDir : DynTuple → String) (partialDone fullDone : String → Bool)
    (savedEpochs : String → List Nat) (tops : List String) (bestDir : String)
    (bestEpoch : Nat) (bestScore : ℚ) (trained3 : Nat → Bool) (score3 : Nat → ℚ)
    (fuel : Nat) : List Effect :=
  [.writeConfigStatic, .writeConfigDynamic, .writeConfigEval] ++
  phase1Effects epochPartial cfgs resolvedDir partialDone ++
  (if epochPartial = epoch then [] else
    phase2Effects tops fullDone savedEpochs ++
    (if bestEpoch = epoch then
      phase3Effects bestDir score3 trained3 fuel bestEpoch bestScore ++
        [.writeMetric3rd]
     else []) ++
    [.copyBestModel bestDir, .writeBestConfig])

/-- Everything the 1st RUN writes is a training checkpoint, a
per-checkpoint metric file, or `metric.1st.json`. -/
theorem mem_phase1Effects (epochPartial : Nat) (cfgs : List DynTuple)
    (resolvedDir : DynTuple → String) (partialDone : String → Bool)
    (x : Effect) (hx : x ∈ phase1Effects epochPartial cfgs resolvedDir partialDone) :
    (∃ d, x = .trainCkpt d) ∨ (∃ d, x = .writeCkptMetric d) ∨
      x = .writeMetric1st := by
  simp only [phase1Effects, List.mem_append, List.mem_flatMap,
    List.mem_map, List.mem_singleton] at hx
  rcases hx with (⟨c, _, hc⟩ | ⟨c, _, hc⟩) | hx
  · left
    revert hc
    split
    · intro hc
      exact absurd hc (List.not_mem_nil x)
    · intro hc
      exact ⟨_, List.mem_singleton.mp hc⟩
  · right
    left
    exact ⟨_, hc.symm⟩
  · right
    right
    exact hx

/-- C10: with `epoch_partial = epoch`, `run` stops right after persisting
`metric.1st.json`: that file is written, it is the last write of the run,
and no `metric.2nd.json`, `metric.3rd.json`, `best_model` copy or
best-model config write ever happens. -/
theorem c10_early_return_skips_later_phases (epoch : Nat) (cfgs : List DynTuple)
    (resolvedDir : DynTuple → String) (partialDone fullDone : String → Bool)
    (savedEpochs : String → List Nat) (tops : List String) (bestDir : String)
    (bestEpoch : Nat) (bestScore : ℚ) (trained3 : Nat → Bool) (score3 : Nat → ℚ)
    (fuel : Nat) :
    Effect.writeMetric1st ∈ runEffects epoch epoch cfgs resolvedDir partialDone
      fullDone savedEpochs tops bestDir bestEpoch bestScore trained3 score3 fuel ∧
    (runEffects epoch epoch cfgs resolvedDir partialDone fullDone savedEpochs
      tops bestDir bestEpoch bestScore trained3 score3 fuel).getLast? =
      some Effect.writeMetric1st ∧
    Effect.writeMetric2nd ∉ runEffects epoch epoch cfgs resolvedDir partialDone
      fullDone savedEpochs tops bestDir bestEpoch bestScore trained3 score3 fuel ∧
    Effect.writeMetric3rd ∉ runEffects epoch epoch cfgs resolvedDir partialDone
      fullDone savedEpochs tops bestDir bestEpoch bestScore trained3 score3 fuel ∧
    (∀ d, Effect.copyBestModel d ∉ runEffects epoch epoch cfgs resolvedDir
      partialDone fullDone savedEpochs tops bestDir bestEpoch bestScore trained3
      score3 fuel) ∧
    Effect.writeBestConfig ∉ runEffects epoch epoch cfgs resolvedDir partialDone
      fullDone savedEpochs tops bestDir bestEpoch bestScore trained3 score3 fuel := by
  have hfx : runEffects epoch epoch cfgs resolvedDir partialDone fullDone
      savedEpochs tops bestDir bestEpoch bestScore trained3 score3 fuel =
      [.writeConfigStatic, .writeConfigDynamic, .writeConfigEval] ++
        phase1Effects epoch cfgs resolvedDir partialDone ++ [] := by
    unfold runEffects
    rw [if_pos rfl]
  refine ⟨?_, ?_, ?_, ?_, ?_, ?_⟩
  · rw [hfx]
    simp [phase1Effects]
  · rw [hfx, List.append_nil]
    have h2 : [Effect.writeConfigStatic, .writeConfigDynamic, .writeConfigEval] ++
        phase1Effects epoch cfgs resolvedDir partialDone =
        ([Effect.writeConfigStatic, .writeConfigDynamic, .writeConfigEval] ++
          ((cfgs.flatMap fun c =>
            if partialDone (resolvedDir c) then []
            else [Effect.trainCkpt (resolvedDir c)]) ++
          (cfgs.map fun c =>
            Effect.writeCkptMetric (resolvedDir c ++ "/epoch_" ++ toString epoch)))) ++
        [Effect.writeMetric1st] := by
      simp [phase1Effects]
    rw [h2, List.getLast?_concat]
  · rw [hfx]
    intro hmem
    simp only [List.append_nil, List.mem_append] at hmem
    rcases hmem with h | h
    · simp at h
    · rcases mem_phase1Effects _ _ _ _ _ h with ⟨d, hd⟩ | ⟨d, hd⟩ | hd <;>
        exact Effect.noConfusion hd
  · rw [hfx]
    intro hmem
    simp only [List.append_nil, List.mem_append] at hmem
    rcases hmem with h | h
    · simp at h
    · rcases mem_phase1Effects _ _ _ _ _ h with ⟨d, hd⟩ | ⟨d, hd⟩ | hd <;>
        exact Effect.noConfusion hd
  · intro d0
    rw [hfx]
    intro hmem
    simp only [List.append_nil, List.mem_append] at hmem
    rcases hmem with h | h
    · simp at h
    · rcases mem_phase1Effects _ _ _ _ _ h with ⟨d, hd⟩ | ⟨d, hd⟩ | hd <;>
        exact Effect.noConfusion hd
  · rw [hfx]
    intro hmem
    simp only [List.append_nil, List.mem_append] at hmem
    rcases hmem with h | h
    · simp at h
    · rcases mem_phase1Effects _ _ _ _ _ h with ⟨d, hd⟩ | ⟨d, hd⟩ | hd <;>
        exact Effect.noConfusion hd

end NerTrainer
